import Mathlib

/-!
Shallow embedding of the Twitch_Final relay server core
(`src/server.py`, `src/protocol_recv.py`).

Bytes are `Nat` (0..255).  A socket is identified by a `SocketId`.
Python dicts are modelled as association lists with insert-or-replace
semantics preserving insertion order, matching CPython dict behaviour.
A socket's read side is modelled by a *schedule*: the list of chunks
successive `recv` calls return (an empty chunk, or an exhausted
schedule, models the peer having closed the connection).
-/

namespace Twitch

abbrev Byte := Nat

/-- Python dict lookup (`d.get(k)` / `k in d`). -/
def dlookup {α β : Type} [DecidableEq α] (k : α) : List (α × β) → Option β
  | [] => none
  | (k', v) :: rest => if k = k' then some v else dlookup k rest

/-- Python dict assignment `d[k] = v`: replaces in place, else appends. -/
def dinsert {α β : Type} [DecidableEq α] (k : α) (v : β) : List (α × β) → List (α × β)
  | [] => [(k, v)]
  | (k', v') :: rest => if k = k' then (k, v) :: rest else (k', v') :: dinsert k v rest

/-- Python dict `d.pop(k)` (ignoring the returned value): removes the key. -/
def derase {α β : Type} [DecidableEq α] (k : α) (l : List (α × β)) : List (α × β) :=
  l.filter (fun p => p.1 ≠ k)



/-! ## Framing codec: `protocol_recv.receive_data` -/

/-- Python `struct.unpack("I", bs)` on the reference (little-endian) platform:
the 4 bytes as an unsigned integer, least significant byte first. -/
def unpackI (bs : List Byte) : Nat :=
  match bs with
  | [b0, b1, b2, b3] => b0 + b1 * 256 + b2 * 65536 + b3 * 16777216
  | _ => 0

/-- Python `struct.pack("I", n)`: 4 little-endian bytes. -/
def packI (n : Nat) : List Byte :=
  [n % 256, n / 256 % 256, n / 65536 % 256, n / 16777216 % 256]

/-- Result of `receive_data`: either `(payload_size, payload)` or the
`(0, None)` disconnect signal. -/
inductive RecvResult
  | ok (size : Nat) (payload : List Byte)
  | disconnect
deriving DecidableEq, Repr

/-- The payload loop of `receive_data`:
`while len(data) < payload_size: chunk = recv(remaining); if not chunk: return None; data += chunk`.
Each recursive step consumes one schedule entry; an exhausted schedule
behaves like a closed peer (recv returns `b''`). -/
def recvLoop (need : Nat) (acc : List Byte) : List (List Byte) → Option (List Byte)
  | [] => if acc.length < need then none else some acc
  | c :: rest =>
      if acc.length < need then
        if c.isEmpty then none else recvLoop need (acc ++ c) rest
      else some acc

/-- Function `receive_data(client_socket)` from `protocol_recv.py`.
The first schedule entry is what the single `recv(4)` header call returns:
empty → `(0, None)`; fewer or more than 4 bytes → `struct.error`,
caught and turned into `(0, None)`; exactly 4 bytes → unpack the length
and run the payload loop. -/
def receive_data (sched : List (List Byte)) : RecvResult :=
  match sched with
  | [] => .disconnect
  | c :: rest =>
      if c.isEmpty then .disconnect
      else if c.length = 4 then
        match recvLoop (unpackI c) [] rest with
        | none => .disconnect
        | some d => .ok (unpackI c) d
      else .disconnect

/-- Well-formedness of a payload-read schedule: each chunk returned by
`recv(remaining)` has at most `remaining` bytes (a kernel guarantee). -/
def recvFits (need : Nat) (accLen : Nat) : List (List Byte) → Bool
  | [] => true
  | c :: rest =>
      if accLen < need then
        decide (c.length ≤ need - accLen) && (c.isEmpty || recvFits need (accLen + c.length) rest)
      else true

/-- Well-formedness of a whole `receive_data` schedule: the header chunk
has at most 4 bytes, and when it has exactly 4 the payload chunks fit. -/
def schedFits (sched : List (List Byte)) : Bool :=
  match sched with
  | [] => true
  | c :: rest =>
      decide (c.length ≤ 4) && (if c.length = 4 then recvFits (unpackI c) 0 rest else true)

/-! ## Stream registry data model (`StreamServer.active_streams`) -/

/-- One of the two physical TCP connections of a client. -/
structure SocketId where
  sid : Nat
deriving DecidableEq, Repr

inductive MediaKind
  | video
  | audio
deriving DecidableEq, Repr

/-- The `"host"` entry of a stream record:
`{"id": client_id, "video": video_sock, "audio": audio_sock}`. -/
structure HostRec where
  id : String
  video : SocketId
  audio : SocketId
deriving DecidableEq, Repr

/-- A viewer record: `{"video": video_sock, "audio": audio_sock}`. -/
structure ViewerRec where
  video : SocketId
  audio : SocketId
deriving DecidableEq, Repr

def ViewerRec.sock (v : ViewerRec) : MediaKind → SocketId
  | .video => v.video
  | .audio => v.audio

/-- A stream record: `{"host": ..., "viewers": {...}}`. -/
structure Stream where
  host : HostRec
  viewers : List (String × ViewerRec)
deriving DecidableEq, Repr

/-- The map `self.active_streams : stream_id → Stream`. -/
abbrev Registry := List (String × Stream)

/-- A JSON reply sent length-prefixed on the video connection. -/
inductive Reply
  | hostOk (stream_id : String)
  | viewerOk
  | error (message : String)
deriving DecidableEq, Repr

/-- Result of one handshake interaction: the registry afterwards, the
replies written to the video connection (in order), and the sockets
closed (in order). -/
structure RoleOutcome where
  registry : Registry
  sentVideo : List Reply
  closed : List SocketId
deriving DecidableEq, Repr

/-! ## Role negotiation (`_assign_client_role`, `_setup_host`, `_setup_viewer`) -/

/-- The one framed handshake message read from the video connection:
either a parsed JSON object with string fields, or a fault
(`recv` timeout, connection error, or unparseable JSON), which raises
and is caught by the `except` block of `_assign_client_role`. -/
inductive Handshake
  | msg (fields : List (String × String))
  | fault
deriving DecidableEq, Repr

/-- Method `StreamServer._setup_host`: derives `stream_id = "stream_" + client_id[:8]`,
assigns a fresh stream record into `active_streams` (plain dict
assignment — replaces any record already under that key), then sends
the framed `HOST_OK` confirmation. -/
def setup_host (client_id : String) (video_sock audio_sock : SocketId)
    (reg : Registry) : RoleOutcome :=
  let stream_id := "stream_" ++ (client_id.take 8)
  let st : Stream :=
    { host := { id := client_id, video := video_sock, audio := audio_sock },
      viewers := [] }
  { registry := dinsert stream_id st reg,
    sentVideo := [.hostOk stream_id],
    closed := [] }

/-- Method `StreamServer._setup_viewer`: under the lock, if the stream is absent
prepare the `ERROR` rejection, otherwise assign the viewer record
(dict assignment — replaces an existing entry for the same client id)
and prepare `VIEWER_OK`; then send the response and, on `ERROR`,
close both connections. `stream_id` is `intent_data.get("stream_id")`,
so it may be `none` (never a registry key). -/
def setup_viewer (client_id : String) (stream_id : Option String)
    (video_sock audio_sock : SocketId) (reg : Registry) : RoleOutcome :=
  match stream_id with
  | none =>
      { registry := reg,
        sentVideo := [.error "Stream not found"],
        closed := [video_sock, audio_sock] }
  | some sid =>
      match dlookup sid reg with
      | none =>
          { registry := reg,
            sentVideo := [.error "Stream not found"],
            closed := [video_sock, audio_sock] }
      | some st =>
          let vrec : ViewerRec := { video := video_sock, audio := audio_sock }
          let st' : Stream := { st with viewers := dinsert client_id vrec st.viewers }
          { registry := dinsert sid st' reg,
            sentVideo := [.viewerOk],
            closed := [] }

/-- Method `StreamServer._assign_client_role`: reads one framed JSON message from
the video connection; `action == "HOST"` → host path, `action == "VIEWER"`
→ viewer path; any other action raises `ValueError`, and that — like a
read fault or JSON parse failure — lands in the `except` block, which
closes both sockets (sending nothing). -/
def assign_client_role (client_id : String) (hs : Handshake)
    (video_sock audio_sock : SocketId) (reg : Registry) : RoleOutcome :=
  match hs with
  | .fault =>
      { registry := reg, sentVideo := [], closed := [video_sock, audio_sock] }
  | .msg fields =>
      let action := dlookup "action" fields
      if action = some "HOST" then
        setup_host client_id video_sock audio_sock reg
      else if action = some "VIEWER" then
        setup_viewer client_id (dlookup "stream_id" fields)
          video_sock audio_sock reg
      else
        { registry := reg, sentVideo := [], closed := [video_sock, audio_sock] }

/-- Whether a handshake lands in the `except` block of
`_assign_client_role`: a read fault / unparseable JSON, or a parsed
message whose `action` is neither `"HOST"` nor `"VIEWER"` (the
`raise ValueError` branch). -/
def negotiationFault (hs : Handshake) : Bool :=
  match hs with
  | .fault => true
  | .msg fields =>
      !(dlookup "action" fields = some "HOST") &&
      !(dlookup "action" fields = some "VIEWER")

/-! ## Broadcast relay (`broadcast_media`, `_remove_viewers`, `cleanup_stream`) -/

/-- The fan-out `for` loop body of `broadcast_media`: iterate the viewer
map in order; `sendall(struct.pack("I", packet_size) + data_payload)`
to each viewer's connection of this kind; a failing write appends the
viewer id to `viewers_to_remove` instead of aborting the loop.
`failing` is the environment's choice of which sockets' writes raise.
Returns (deliveries in order, `viewers_to_remove` in order). -/
def writePass (kind : MediaKind) (failing : SocketId → Bool) (wire : List Byte) :
    List (String × ViewerRec) → List (String × List Byte) × List String
  | [] => ([], [])
  | (vid, v) :: rest =>
      let (d, r) := writePass kind failing wire rest
      if failing (v.sock kind) then (d, vid :: r) else ((vid, wire) :: d, r)

/-- Method `StreamServer._remove_viewers`: under the lock, pop each listed viewer
id from the stream's viewer map if present; no-op when the stream or an
id is absent. -/
def remove_viewers (stream_id : String) (viewer_ids : List String)
    (reg : Registry) : Registry :=
  match dlookup stream_id reg with
  | none => reg
  | some st =>
      let st' : Stream :=
        { st with viewers := st.viewers.filter (fun p => p.1 ∉ viewer_ids) }
      dinsert stream_id st' reg

/-- One iteration of the `while` loop of `broadcast_media`, after
`receive_data(host_socket)` produced `recvRes`:
`(0, None)` → `break`; stream no longer registered → `break`;
otherwise run the fan-out pass under the lock and, if any writes failed,
apply `_remove_viewers` after the pass.  Returns the registry afterwards,
the deliveries of this pass, and whether the loop continues. -/
def broadcast_iteration (stream_id : String) (kind : MediaKind)
    (recvRes : RecvResult) (failing : SocketId → Bool) (reg : Registry) :
    Registry × List (String × List Byte) × Bool :=
  match recvRes with
  | .disconnect => (reg, [], false)
  | .ok size payload =>
      match dlookup stream_id reg with
      | none => (reg, [], false)
      | some st =>
          let pass := writePass kind failing (packI size ++ payload) st.viewers
          (if pass.2.isEmpty then reg else remove_viewers stream_id pass.2 reg,
           pass.1, true)

/-- Registry plus the cumulative list of sockets the server has closed. -/
structure ServerState where
  streams : Registry
  closed : List SocketId
deriving DecidableEq, Repr

/-- The sockets `cleanup_stream` closes for one stream record, in
iteration order: the host's video and audio connections, then each
viewer's video and audio connections. -/
def streamSockets (st : Stream) : List SocketId :=
  [st.host.video, st.host.audio] ++
    st.viewers.flatMap (fun p => [p.2.video, p.2.audio])

/-- Method `StreamServer.cleanup_stream`: under the lock, if the stream is still
registered, pop it and close every socket it holds; otherwise do
nothing at all. -/
def cleanup_stream (stream_id : String) (s : ServerState) : ServerState :=
  match dlookup stream_id s.streams with
  | none => s
  | some st =>
      { streams := derase stream_id s.streams,
        closed := s.closed ++ streamSockets st }

/-! ## Pairing race (`handle_incoming_connection`, lines 101–109)

Two threads — one per media kind — run the tail of
`handle_incoming_connection` for the same client identifier.  Each
thread performs three atomic actions:

1. *insert* (under `stream_lock`): `pending_pairs.setdefault(cid, {})[kind] = sock`
   and bind `pair` to the (shared, live) dict object;
2. *check* (no lock): `"video" in pair and "audio" in pair`, reading the
   current contents of the shared dict — note the dict object keeps both
   keys even after the entry is popped from `pending_pairs`;
3. *pop* (under `stream_lock`, only if the check succeeded):
   `pending_pairs.pop(cid)` — succeeds for exactly one thread (and that
   thread then invokes `_assign_client_role`), raises `KeyError` for a
   thread that arrives after the entry is gone (caught by the outer
   `except`). -/

inductive PairPC
  | beforeInsert
  | beforeCheck
  | beforePop
  | done
deriving DecidableEq, Repr

structure PairSim where
  /-- Whether `cid in pending_pairs`. -/
  pendingPresent : Bool
  /-- Whether `"video" in pair` (contents of the shared dict object). -/
  hasVideo : Bool
  /-- Whether `"audio" in pair`. -/
  hasAudio : Bool
  /-- number of `_assign_client_role` invocations for this identifier -/
  negotiations : Nat
  /-- number of threads whose `pop` raised `KeyError` -/
  keyErrors : Nat
  pcV : PairPC
  pcA : PairPC
deriving DecidableEq, Repr

def PairSim.pc (s : PairSim) (isVideo : Bool) : PairPC :=
  if isVideo then s.pcV else s.pcA

def PairSim.setPc (s : PairSim) (isVideo : Bool) (p : PairPC) : PairSim :=
  if isVideo then { s with pcV := p } else { s with pcA := p }

/-- One atomic action of the given thread (`true` = the video-kind
thread); a finished thread does nothing. -/
def stepThread (isVideo : Bool) (s : PairSim) : PairSim :=
  match s.pc isVideo with
  | .beforeInsert =>
      let s' := if isVideo then { s with hasVideo := true }
                else { s with hasAudio := true }
      ({ s' with pendingPresent := true }).setPc isVideo .beforeCheck
  | .beforeCheck =>
      if s.hasVideo && s.hasAudio then s.setPc isVideo .beforePop
      else s.setPc isVideo .done
  | .beforePop =>
      if s.pendingPresent then
        ({ s with pendingPresent := false,
                  negotiations := s.negotiations + 1 }).setPc isVideo .done
      else
        ({ s with keyErrors := s.keyErrors + 1 }).setPc isVideo .done
  | .done => s

def pairInit : PairSim :=
  { pendingPresent := false, hasVideo := false, hasAudio := false,
    negotiations := 0, keyErrors := 0,
    pcV := .beforeInsert, pcA := .beforeInsert }

/-- Run a schedule: each entry picks which thread takes its next atomic
action. -/
def runSched (sched : List Bool) : PairSim :=
  sched.foldl (fun s b => stepThread b s) pairInit

/-- All `2^6` schedules of six scheduling decisions — enough slots for
both three-action threads to run to completion in any interleaving. -/
def allSchedules : List (List Bool) :=
  (List.range 64).map (fun n =>
    (List.range 6).map (fun i => n / 2 ^ i % 2 = 1))

def PairSim.bothDone (s : PairSim) : Bool :=
  s.pcV = PairPC.done && s.pcA = PairPC.done

/-! ## Spec-side model of the framing codec -/

/-- Variant of `recvLoop` that also returns the unconsumed schedule. -/
def recvLoopRest (need : Nat) (acc : List Byte) :
    List (List Byte) → Option (List Byte × List (List Byte))
  | [] => if acc.length < need then none else some (acc, [])
  | c :: rest =>
      if acc.length < need then
        if c.isEmpty then none else recvLoopRest need (acc ++ c) rest
      else some (acc, c :: rest)

/-- Follows the spec's words (§4.1): `readFrame` "reads exactly 4 header
bytes, interprets them as an unsigned length, then reads exactly that
many payload bytes, blocking/suspending as needed across partial reads"
— i.e. it keeps reading across partial chunks for the *header* as well
as for the payload.  Declared only to be compared against the source's
`receive_data`, which does not loop on the header. -/
def readFrame_specModel (sched : List (List Byte)) : RecvResult :=
  match recvLoopRest 4 [] sched with
  | none => .disconnect
  | some (hdr, rest) =>
      match recvLoopRest (unpackI hdr) [] rest with
      | none => .disconnect
      | some (d, _) => .ok (unpackI hdr) d

/-! ## Helper lemmas -/

theorem dlookup_dinsert {α β : Type} [DecidableEq α] (k : α) (v : β) (l : List (α × β)) :
    dlookup k (dinsert k v l) = some v := by
  induction l with
  | nil => simp [dinsert, dlookup]
  | cons p rest ih =>
      by_cases h : k = p.1
      · simp [dinsert, h, dlookup]
      · simp [dinsert, h, dlookup, ih]

theorem dlookup_derase {α β : Type} [DecidableEq α] (k : α) (l : List (α × β)) :
    dlookup k (derase k l) = none := by
  induction l with
  | nil => simp [derase, dlookup]
  | cons p rest ih =>
      by_cases h : p.1 = k
      · simpa [derase, h, List.filter_cons] using ih
      · simp only [derase, List.filter_cons] at ih ⊢
        simp only [h, decide_False, Bool.not_false, if_pos, ne_eq, decide_not]
        simpa [dlookup, Ne.symm h] using ih

theorem recvLoop_length (need : Nat) :
    ∀ (sched : List (List Byte)) (acc : List Byte) (d : List Byte),
      acc.length ≤ need →
      recvFits need acc.length sched = true →
      recvLoop need acc sched = some d → d.length = need := by
  intro sched
  induction sched with
  | nil =>
      intro acc d hle _ hrun
      simp only [recvLoop] at hrun
      split at hrun
      · exact absurd hrun (by simp)
      · rename_i hge
        cases hrun
        omega
  | cons c rest ih =>
      intro acc d hle hfit hrun
      simp only [recvLoop] at hrun
      split at hrun
      · rename_i hlt
        split at hrun
        · exact absurd hrun (by simp)
        · rename_i hne
          simp only [recvFits, if_pos hlt, Bool.and_eq_true, Bool.or_eq_true,
            decide_eq_true_eq] at hfit
          have hcne : c.isEmpty = false := by
            cases hc : c.isEmpty
            · rfl
            · exact absurd hc (by simpa using hne)
          have hfit2 : recvFits need (acc ++ c).length rest = true := by
            rcases hfit.2 with h | h
            · rw [hcne] at h; exact absurd h (by simp)
            · simpa [List.length_append] using h
          have hle2 : (acc ++ c).length ≤ need := by
            have := hfit.1
            simp only [List.length_append]
            omega
          exact ih (acc ++ c) d hle2 hfit2 hrun
      · rename_i hge
        cases hrun
        omega


theorem dlookup_mem {α β : Type} [DecidableEq α] {k : α} {v : β} :
    ∀ {l : List (α × β)}, dlookup k l = some v → (k, v) ∈ l := by
  intro l
  induction l with
  | nil => intro h; simp [dlookup] at h
  | cons p rest ih =>
      obtain ⟨k', v'⟩ := p
      intro h
      simp only [dlookup] at h
      split at h
      · rename_i heq
        cases h
        subst heq
        exact List.mem_cons_self _ _
      · exact List.mem_cons_of_mem _ (ih h)

theorem dlookup_filter {α β : Type} [DecidableEq α] (q : α × β → Bool) {k : α} {v : β} :
    ∀ {l : List (α × β)}, dlookup k l = some v → q (k, v) = true →
      dlookup k (l.filter q) = some v := by
  intro l
  induction l with
  | nil => intro h; simp [dlookup] at h
  | cons p rest ih =>
      obtain ⟨k', v'⟩ := p
      intro h hq
      simp only [dlookup] at h
      by_cases heq : k = k'
      · rw [if_pos heq] at h
        cases h
        subst heq
        rw [List.filter_cons, if_pos (by simpa using hq)]
        simp [dlookup]
      · rw [if_neg heq] at h
        rw [List.filter_cons]
        split
        · simpa [dlookup, heq] using ih h hq
        · exact ih h hq

theorem dlookup_filter_none {α β : Type} [DecidableEq α] (q : α × β → Bool) {k : α}
    (l : List (α × β)) (h : ∀ v : β, q (k, v) = false) :
    dlookup k (l.filter q) = none := by
  induction l with
  | nil => simp [dlookup]
  | cons p rest ih =>
      obtain ⟨k', v'⟩ := p
      rw [List.filter_cons]
      split
      · rename_i hq
        have hne : k ≠ k' := by
          intro heq
          subst heq
          rw [h v'] at hq
          exact absurd hq (by simp)
        simpa [dlookup, hne] using ih
      · exact ih

theorem mem_eq_of_nodup_keys {α β : Type} [DecidableEq α] :
    ∀ {l : List (α × β)}, (l.map Prod.fst).Nodup →
      ∀ {k : α} {v w : β}, (k, v) ∈ l → (k, w) ∈ l → v = w := by
  intro l
  induction l with
  | nil => intro _ k v w h; simp at h
  | cons p rest ih =>
      intro hnd k v w h1 h2
      rw [List.map_cons, List.nodup_cons] at hnd
      rcases List.mem_cons.mp h1 with e1 | m1
      · rcases List.mem_cons.mp h2 with e2 | m2
        · rw [← e1] at e2; exact (congrArg Prod.snd e2).symm
        · exfalso
          apply hnd.1
          have : k = p.1 := by rw [← e1]
          rw [this] at m2
          exact List.mem_map.mpr ⟨(p.1, w), m2, rfl⟩
      · rcases List.mem_cons.mp h2 with e2 | m2
        · exfalso
          apply hnd.1
          have : k = p.1 := by rw [← e2]
          rw [this] at m1
          exact List.mem_map.mpr ⟨(p.1, v), m1, rfl⟩
        · exact ih hnd.2 m1 m2

theorem writePass_eq (kind : MediaKind) (failing : SocketId → Bool) (wire : List Byte) :
    ∀ l : List (String × ViewerRec),
      writePass kind failing wire l =
        ((l.filter (fun p => !failing (p.2.sock kind))).map (fun p => (p.1, wire)),
         (l.filter (fun p => failing (p.2.sock kind))).map Prod.fst) := by
  intro l
  induction l with
  | nil => rfl
  | cons p rest ih =>
      obtain ⟨vid, v⟩ := p
      simp only [writePass, ih, List.filter_cons]
      by_cases h : failing (v.sock kind) = true
      · simp [h]
      · simp [Bool.eq_false_iff.mpr h, h]

theorem writePass_none_failing (kind : MediaKind) (wire : List Byte)
    (l : List (String × ViewerRec)) :
    writePass kind (fun _ => false) wire l = (l.map (fun p => (p.1, wire)), []) := by
  rw [writePass_eq]
  simp

/-! ## Claim theorems -/

/-- C1 counterexample: on a handshake whose `action` is `"DANCE"` (neither
`"HOST"` nor `"VIEWER"`), the claim asserts a framed
`{status:"ERROR", message:<reason>}` is sent on the video connection
before both connections are closed; the code's `except` block closes
both sockets and sends nothing, so `sentVideo` is empty. -/
theorem role_fault_reply_counterexample :
    (assign_client_role "11111111-1111-1111-1111-111111111111"
        (.msg [("action", "DANCE")]) ⟨0⟩ ⟨1⟩ []).sentVideo = [] ∧
    (assign_client_role "11111111-1111-1111-1111-111111111111"
        (.msg [("action", "DANCE")]) ⟨0⟩ ⟨1⟩ []).closed = [⟨0⟩, ⟨1⟩] :=
  ⟨rfl, rfl⟩

/-- C1 (amended): for every handshake read on the video connection whose
message has an action other than `"HOST"` or `"VIEWER"`, or is malformed
JSON, or times out, the role negotiator closes both the video and audio
connections **without sending any reply**, and the stream registry is
left unchanged. -/
theorem role_fault_closes_both (client_id : String) (hs : Handshake)
    (video_sock audio_sock : SocketId) (reg : Registry)
    (h : negotiationFault hs = true) :
    assign_client_role client_id hs video_sock audio_sock reg =
      { registry := reg, sentVideo := [], closed := [video_sock, audio_sock] } := by
  cases hs with
  | fault => rfl
  | msg fields =>
      simp only [negotiationFault, Bool.and_eq_true, Bool.not_eq_true',
        decide_eq_false_iff_not] at h
      simp only [assign_client_role]
      rw [if_neg h.1, if_neg h.2]

/-- C1 witness: the amended theorem applied to the `"DANCE"` handshake. -/
theorem role_fault_closes_both_witness :
    negotiationFault (.msg [("action", "DANCE")]) = true ∧
    assign_client_role "11111111-1111-1111-1111-111111111111"
        (.msg [("action", "DANCE")]) ⟨0⟩ ⟨1⟩ [] =
      { registry := [], sentVideo := [], closed := [⟨0⟩, ⟨1⟩] } :=
  ⟨by decide, role_fault_closes_both _ _ _ _ _ (by decide)⟩

/-- C2 counterexample: two Host negotiations whose 36-character
identifiers share their first 8 characters produce the same
`stream_id`; the second `_setup_host` silently replaces the first
host's Stream record (last-writer-wins), instead of failing. -/
theorem stream_create_overwrite_counterexample :
    (dlookup "stream_11111111"
        (setup_host "11111111-aaaa-aaaa-aaaa-aaaaaaaaaaaa" ⟨0⟩ ⟨1⟩ []).registry).map
        (fun st => st.host.id) = some "11111111-aaaa-aaaa-aaaa-aaaaaaaaaaaa" ∧
    (dlookup "stream_11111111"
        (setup_host "11111111-bbbb-bbbb-bbbb-bbbbbbbbbbbb" ⟨2⟩ ⟨3⟩
          (setup_host "11111111-aaaa-aaaa-aaaa-aaaaaaaaaaaa" ⟨0⟩ ⟨1⟩ []).registry).registry).map
        (fun st => st.host.id) = some "11111111-bbbb-bbbb-bbbb-bbbbbbbbbbbb" :=
  ⟨rfl, rfl⟩

/-- C2 (amended): the registry's create operation (`_setup_host`'s dict
assignment) never fails: it unconditionally maps the generated
`stream_id` to the new host's Stream record, replacing any Stream
already registered under that id (last-writer-wins); a colliding second
Host negotiation therefore overwrites the first host's Stream. -/
theorem stream_create_last_writer_wins (client_id : String) (v a : SocketId)
    (reg : Registry) :
    dlookup ("stream_" ++ client_id.take 8) (setup_host client_id v a reg).registry =
      some { host := { id := client_id, video := v, audio := a }, viewers := [] } :=
  dlookup_dinsert _ _ _

/-- C3: a client completing the Host handshake with a 36-character
identifier `I` is answered with `HOST_OK` carrying
`stream_id = "stream_" + I[0:8]`, and afterwards the registry maps that
stream id to a Stream whose host record holds this client's id and two
connections, with an empty viewer map; nothing is closed. -/
theorem host_handshake_ok (client_id : String) (fields : List (String × String))
    (v a : SocketId) (reg : Registry)
    (_hlen : client_id.length = 36)
    (hact : dlookup "action" fields = some "HOST") :
    (assign_client_role client_id (.msg fields) v a reg).sentVideo =
      [.hostOk ("stream_" ++ client_id.take 8)] ∧
    dlookup ("stream_" ++ client_id.take 8)
        (assign_client_role client_id (.msg fields) v a reg).registry =
      some { host := { id := client_id, video := v, audio := a }, viewers := [] } ∧
    (assign_client_role client_id (.msg fields) v a reg).closed = [] := by
  have he : assign_client_role client_id (.msg fields) v a reg =
      setup_host client_id v a reg := by
    simp only [assign_client_role]
    rw [hact, if_pos rfl]
  rw [he]
  exact ⟨rfl, dlookup_dinsert _ _ _, rfl⟩

/-- C3 witness: the concrete scenario of spec §8. -/
theorem host_handshake_ok_witness :
    ("11111111-1111-1111-1111-111111111111" : String).length = 36 ∧
    ((assign_client_role "11111111-1111-1111-1111-111111111111"
        (.msg [("action", "HOST")]) ⟨0⟩ ⟨1⟩ []).sentVideo =
      [.hostOk ("stream_" ++ ("11111111-1111-1111-1111-111111111111" : String).take 8)] ∧
    dlookup ("stream_" ++ ("11111111-1111-1111-1111-111111111111" : String).take 8)
        (assign_client_role "11111111-1111-1111-1111-111111111111"
          (.msg [("action", "HOST")]) ⟨0⟩ ⟨1⟩ []).registry =
      some { host := { id := "11111111-1111-1111-1111-111111111111",
                       video := ⟨0⟩, audio := ⟨1⟩ }, viewers := [] } ∧
    (assign_client_role "11111111-1111-1111-1111-111111111111"
        (.msg [("action", "HOST")]) ⟨0⟩ ⟨1⟩ []).closed = []) :=
  ⟨by decide, host_handshake_ok _ _ _ _ _ (by decide) (by decide)⟩

/-- C4: a Viewer handshake naming a `stream_id` absent from the registry
is answered with framed `{"status":"ERROR","message":"Stream not found"}`,
both of the client's connections are closed, and the registry is
returned completely unchanged. -/
theorem viewer_unknown_stream_error (client_id : String)
    (fields : List (String × String)) (sid : String) (v a : SocketId)
    (reg : Registry)
    (hact : dlookup "action" fields = some "VIEWER")
    (hsid : dlookup "stream_id" fields = some sid)
    (habs : dlookup sid reg = none) :
    assign_client_role client_id (.msg fields) v a reg =
      { registry := reg, sentVideo := [.error "Stream not found"],
        closed := [v, a] } := by
  simp only [assign_client_role]
  rw [hact, if_neg (by decide), if_pos rfl, hsid]
  simp [setup_viewer, habs]

/-- C4 witness: a viewer asking for a stream while the registry is empty. -/
theorem viewer_unknown_stream_error_witness :
    dlookup "stream_99999999" ([] : Registry) = none ∧
    assign_client_role "22222222-2222-2222-2222-222222222222"
        (.msg [("action", "VIEWER"), ("stream_id", "stream_99999999")]) ⟨4⟩ ⟨5⟩ [] =
      { registry := [], sentVideo := [.error "Stream not found"],
        closed := [⟨4⟩, ⟨5⟩] } :=
  ⟨rfl, viewer_unknown_stream_error "22222222-2222-2222-2222-222222222222"
    [("action", "VIEWER"), ("stream_id", "stream_99999999")] "stream_99999999"
    ⟨4⟩ ⟨5⟩ [] (by decide) (by decide) rfl⟩

/-- C5: during one fan-out pass over a stream's viewer map with a frame,
a failed write to viewer `v1` does not prevent viewer `v2` from being
sent the frame; the pass delivers to exactly the viewers of the
pre-pass map whose write succeeds (so the map is not mutated while
iterated), failed ids are removed only afterwards via `_remove_viewers`,
and `v1` is absent — while `v2` is still present — in the viewer map
used for all subsequent frames. -/
theorem broadcast_fault_isolation (sid : String) (kind : MediaKind)
    (size : Nat) (payload : List Byte) (failing : SocketId → Bool)
    (reg : Registry) (st : Stream) (v1 v2 : String) (r1 r2 : ViewerRec)
    (hst : dlookup sid reg = some st)
    (hnd : (st.viewers.map Prod.fst).Nodup)
    (h1 : dlookup v1 st.viewers = some r1)
    (hf1 : failing (r1.sock kind) = true)
    (h2 : dlookup v2 st.viewers = some r2)
    (hf2 : failing (r2.sock kind) = false) :
    (broadcast_iteration sid kind (.ok size payload) failing reg).2.1 =
      (st.viewers.filter (fun p => !failing (p.2.sock kind))).map
        (fun p => (p.1, packI size ++ payload)) ∧
    (v2, packI size ++ payload) ∈
      (broadcast_iteration sid kind (.ok size payload) failing reg).2.1 ∧
    (broadcast_iteration sid kind (.ok size payload) failing reg).2.2 = true ∧
    dlookup sid (broadcast_iteration sid kind (.ok size payload) failing reg).1 =
      some { st with viewers :=
        st.viewers.filter (fun p =>
          p.1 ∉ (st.viewers.filter (fun q => failing (q.2.sock kind))).map Prod.fst) } ∧
    dlookup v1
      (st.viewers.filter (fun p =>
        p.1 ∉ (st.viewers.filter (fun q => failing (q.2.sock kind))).map Prod.fst)) =
      none ∧
    dlookup v2
      (st.viewers.filter (fun p =>
        p.1 ∉ (st.viewers.filter (fun q => failing (q.2.sock kind))).map Prod.fst)) =
      some r2 := by
  have hv1mem : v1 ∈ (st.viewers.filter (fun q => failing (q.2.sock kind))).map Prod.fst := by
    refine List.mem_map.mpr ⟨(v1, r1), ?_, rfl⟩
    exact List.mem_filter.mpr ⟨dlookup_mem h1, by simpa using hf1⟩
  have hv2notmem :
      v2 ∉ (st.viewers.filter (fun q => failing (q.2.sock kind))).map Prod.fst := by
    intro hmem
    obtain ⟨p, hpfilter, hpfst⟩ := List.mem_map.mp hmem
    have hpmem := (List.mem_filter.mp hpfilter).1
    have hpfail := (List.mem_filter.mp hpfilter).2
    obtain ⟨pk, pv⟩ := p
    cases hpfst
    have : pv = r2 := mem_eq_of_nodup_keys hnd hpmem (dlookup_mem h2)
    subst this
    rw [hf2] at hpfail
    exact absurd hpfail (by simp)
  have hne : ((st.viewers.filter (fun q => failing (q.2.sock kind))).map
      Prod.fst).isEmpty = false := by
    cases hx : (st.viewers.filter (fun q => failing (q.2.sock kind))).map Prod.fst with
    | nil => rw [hx] at hv1mem; exact absurd hv1mem (by simp)
    | cons y ys => rfl
  have hiter : broadcast_iteration sid kind (.ok size payload) failing reg =
      (remove_viewers sid
        ((st.viewers.filter (fun q => failing (q.2.sock kind))).map Prod.fst) reg,
       (st.viewers.filter (fun p => !failing (p.2.sock kind))).map
         (fun p => (p.1, packI size ++ payload)),
       true) := by
    simp only [broadcast_iteration, hst, writePass_eq, hne]
    simp
  refine ⟨?_, ?_, ?_, ?_, ?_, ?_⟩
  · rw [hiter]
  · rw [hiter]
    refine List.mem_map.mpr ⟨(v2, r2), ?_, rfl⟩
    exact List.mem_filter.mpr ⟨dlookup_mem h2, by simp [hf2]⟩
  · rw [hiter]
  · rw [hiter]
    simp only [remove_viewers, hst]
    exact dlookup_dinsert _ _ _
  · exact dlookup_filter_none _ _ (fun v => by simpa using hv1mem)
  · exact dlookup_filter _ h2 (by simpa using hv2notmem)

/-- C5 witness: two viewers, the first one's video socket failing while
frame `[1, 2, 3]` is relayed — stated with every application of the
model evaluated to its concrete value. -/
theorem broadcast_fault_isolation_witness :
    dlookup "v1" [("v1", (⟨⟨10⟩, ⟨11⟩⟩ : ViewerRec)), ("v2", ⟨⟨20⟩, ⟨21⟩⟩)] =
      some ⟨⟨10⟩, ⟨11⟩⟩ ∧
    ((broadcast_iteration "s" .video (.ok 3 [1, 2, 3]) (fun s => s.sid = 10)
        [("s", ⟨⟨"h", ⟨100⟩, ⟨101⟩⟩,
          [("v1", ⟨⟨10⟩, ⟨11⟩⟩), ("v2", ⟨⟨20⟩, ⟨21⟩⟩)]⟩)]).2.1 =
        [("v2", [3, 0, 0, 0, 1, 2, 3])] ∧
      ("v2", [3, 0, 0, 0, 1, 2, 3]) ∈
        (broadcast_iteration "s" .video (.ok 3 [1, 2, 3]) (fun s => s.sid = 10)
          [("s", ⟨⟨"h", ⟨100⟩, ⟨101⟩⟩,
            [("v1", ⟨⟨10⟩, ⟨11⟩⟩), ("v2", ⟨⟨20⟩, ⟨21⟩⟩)]⟩)]).2.1 ∧
      (broadcast_iteration "s" .video (.ok 3 [1, 2, 3]) (fun s => s.sid = 10)
        [("s", ⟨⟨"h", ⟨100⟩, ⟨101⟩⟩,
          [("v1", ⟨⟨10⟩, ⟨11⟩⟩), ("v2", ⟨⟨20⟩, ⟨21⟩⟩)]⟩)]).2.2 = true ∧
      dlookup "s"
        (broadcast_iteration "s" .video (.ok 3 [1, 2, 3]) (fun s => s.sid = 10)
          [("s", ⟨⟨"h", ⟨100⟩, ⟨101⟩⟩,
            [("v1", ⟨⟨10⟩, ⟨11⟩⟩), ("v2", ⟨⟨20⟩, ⟨21⟩⟩)]⟩)]).1 =
        some ⟨⟨"h", ⟨100⟩, ⟨101⟩⟩, [("v2", ⟨⟨20⟩, ⟨21⟩⟩)]⟩ ∧
      dlookup "v1" [("v2", (⟨⟨20⟩, ⟨21⟩⟩ : ViewerRec))] = none ∧
      dlookup "v2" [("v2", (⟨⟨20⟩, ⟨21⟩⟩ : ViewerRec))] = some ⟨⟨20⟩, ⟨21⟩⟩) :=
  ⟨rfl, broadcast_fault_isolation "s" .video 3 [1, 2, 3]
    (fun s => s.sid = 10)
    [("s", ⟨⟨"h", ⟨100⟩, ⟨101⟩⟩, [("v1", ⟨⟨10⟩, ⟨11⟩⟩), ("v2", ⟨⟨20⟩, ⟨21⟩⟩)]⟩)]
    ⟨⟨"h", ⟨100⟩, ⟨101⟩⟩, [("v1", ⟨⟨10⟩, ⟨11⟩⟩), ("v2", ⟨⟨20⟩, ⟨21⟩⟩)]⟩
    "v1" "v2" ⟨⟨10⟩, ⟨11⟩⟩ ⟨⟨20⟩, ⟨21⟩⟩
    rfl (by decide) rfl (by decide) rfl (by decide)⟩

/-- C7: stream teardown is idempotent — the first `cleanup_stream` call
for a registered stream removes it from the registry and closes the
host's and every remaining viewer's connections of both kinds (in
iteration order), and a second call with the same stream id is a no-op
that leaves both the registry and the closed-socket log unchanged. -/
theorem cleanup_stream_idempotent (sid : String) (st : Stream) (s : ServerState)
    (h : dlookup sid s.streams = some st) :
    dlookup sid (cleanup_stream sid s).streams = none ∧
    (cleanup_stream sid s).streams = derase sid s.streams ∧
    (cleanup_stream sid s).closed = s.closed ++ streamSockets st ∧
    cleanup_stream sid (cleanup_stream sid s) = cleanup_stream sid s := by
  have h1 : cleanup_stream sid s =
      { streams := derase sid s.streams,
        closed := s.closed ++ streamSockets st } := by
    simp [cleanup_stream, h]
  refine ⟨?_, ?_, ?_, ?_⟩
  · rw [h1]; exact dlookup_derase _ _
  · rw [h1]
  · rw [h1]
  · conv_lhs => rw [h1]
    conv_rhs => rw [h1]
    simp [cleanup_stream, dlookup_derase]

/-- C7 witness: a registry holding one stream with one viewer. -/
theorem cleanup_stream_idempotent_witness :
    dlookup "s" ([("s", (⟨⟨"h", ⟨0⟩, ⟨1⟩⟩, [("v", ⟨⟨2⟩, ⟨3⟩⟩)]⟩ : Stream))] :
        Registry) = some ⟨⟨"h", ⟨0⟩, ⟨1⟩⟩, [("v", ⟨⟨2⟩, ⟨3⟩⟩)]⟩ ∧
    (dlookup "s" (cleanup_stream "s"
        ⟨[("s", ⟨⟨"h", ⟨0⟩, ⟨1⟩⟩, [("v", ⟨⟨2⟩, ⟨3⟩⟩)]⟩)], []⟩).streams = none ∧
    (cleanup_stream "s"
        ⟨[("s", ⟨⟨"h", ⟨0⟩, ⟨1⟩⟩, [("v", ⟨⟨2⟩, ⟨3⟩⟩)]⟩)], []⟩).streams =
      derase "s" [("s", ⟨⟨"h", ⟨0⟩, ⟨1⟩⟩, [("v", ⟨⟨2⟩, ⟨3⟩⟩)]⟩)] ∧
    (cleanup_stream "s"
        ⟨[("s", ⟨⟨"h", ⟨0⟩, ⟨1⟩⟩, [("v", ⟨⟨2⟩, ⟨3⟩⟩)]⟩)], []⟩).closed =
      [] ++ streamSockets ⟨⟨"h", ⟨0⟩, ⟨1⟩⟩, [("v", ⟨⟨2⟩, ⟨3⟩⟩)]⟩ ∧
    cleanup_stream "s" (cleanup_stream "s"
        ⟨[("s", ⟨⟨"h", ⟨0⟩, ⟨1⟩⟩, [("v", ⟨⟨2⟩, ⟨3⟩⟩)]⟩)], []⟩) =
      cleanup_stream "s"
        ⟨[("s", ⟨⟨"h", ⟨0⟩, ⟨1⟩⟩, [("v", ⟨⟨2⟩, ⟨3⟩⟩)]⟩)], []⟩) :=
  ⟨rfl, cleanup_stream_idempotent "s" ⟨⟨"h", ⟨0⟩, ⟨1⟩⟩, [("v", ⟨⟨2⟩, ⟨3⟩⟩)]⟩
    ⟨[("s", ⟨⟨"h", ⟨0⟩, ⟨1⟩⟩, [("v", ⟨⟨2⟩, ⟨3⟩⟩)]⟩)], []⟩ rfl⟩

/-- C6 counterexample: the claim says `receive_data` continues across
partial reads *for the header* as well as for the payload.  On a
connection that delivers the 4 header bytes in two chunks of 2 (then
the 1-byte payload), the spec-side `readFrame` succeeds with payload
`[5]`, but the source's `receive_data` performs a single `recv(4)`,
gets only 2 bytes, fails `struct.unpack` and returns the `(0, None)`
disconnect signal. -/
theorem receive_data_partial_header_counterexample :
    receive_data [[1, 0], [0, 0], [5]] = .disconnect ∧
    readFrame_specModel [[1, 0], [0, 0], [5]] = .ok 1 [5] :=
  ⟨rfl, rfl⟩

/-- C6 (amended): `receive_data` reads the 4-byte header with a *single*
`recv(4)` call — if that call returns anything other than exactly 4
bytes (peer closed, or a partial header read) the result is the
disconnect signal — then interprets the 4 bytes as an unsigned length
`L` and reads exactly `L` payload bytes, continuing across partial
reads for the payload only; on success it returns the `L`-byte
payload. -/
theorem receive_data_frame (hdr : List Byte) (rest : List (List Byte))
    (hfits : schedFits (hdr :: rest) = true) :
    (hdr.length ≠ 4 → receive_data (hdr :: rest) = .disconnect) ∧
    (∀ size payload, receive_data (hdr :: rest) = .ok size payload →
      size = unpackI hdr ∧ payload.length = size) := by
  constructor
  · intro hne
    simp only [receive_data]
    by_cases he : hdr.isEmpty
    · rw [if_pos he]
    · rw [if_neg he, if_neg hne]
  · intro size payload hok
    simp only [receive_data] at hok
    split at hok
    · exact absurd hok (by simp)
    · split at hok
      · rename_i hne hlen
        have hfitp : recvFits (unpackI hdr) 0 rest = true := by
          simp only [schedFits, hlen, if_pos, Bool.and_eq_true] at hfits
          exact hfits.2
        split at hok
        · exact absurd hok (by simp)
        · rename_i d hd
          injection hok with hs hp
          refine ⟨hs.symm, ?_⟩
          rw [← hs, ← hp]
          exact recvLoop_length (unpackI hdr) rest [] d (by simp)
            (by simpa using hfitp) hd
      · exact absurd hok (by simp)

/-- C6 witness: a 3-byte frame whose payload arrives in two chunks. -/
theorem receive_data_frame_witness :
    schedFits [[3, 0, 0, 0], [1, 2], [3]] = true ∧
    ((([3, 0, 0, 0] : List Byte).length ≠ 4 →
      receive_data [[3, 0, 0, 0], [1, 2], [3]] = .disconnect) ∧
    (∀ size payload,
      receive_data [[3, 0, 0, 0], [1, 2], [3]] = .ok size payload →
      size = unpackI [3, 0, 0, 0] ∧ payload.length = size)) :=
  ⟨by decide, receive_data_frame [3, 0, 0, 0] [[1, 2], [3]] (by decide)⟩

/-- C8: when the video-kind and audio-kind connection threads race
through the pairing tail of `handle_incoming_connection` for the same
client identifier, every complete interleaving of their three atomic
actions invokes the role negotiator exactly once — never zero times and
never twice — and afterwards the identifier's pending entry is gone and
no further step of either thread changes anything. -/
theorem pairing_negotiates_exactly_once :
    ∀ sched ∈ allSchedules,
      (runSched sched).negotiations ≤ 1 ∧
      ((runSched sched).bothDone = true →
        (runSched sched).negotiations = 1 ∧
        (runSched sched).pendingPresent = false ∧
        ∀ b : Bool, stepThread b (runSched sched) = runSched sched) := by
  decide

/-- C8 witness: the schedule where the video thread runs all three of
its actions before the audio thread starts. -/
theorem pairing_negotiates_exactly_once_witness :
    [true, true, true, false, false, false] ∈ allSchedules ∧
    ((runSched [true, true, true, false, false, false]).negotiations ≤ 1 ∧
    ((runSched [true, true, true, false, false, false]).bothDone = true →
      (runSched [true, true, true, false, false, false]).negotiations = 1 ∧
      (runSched [true, true, true, false, false, false]).pendingPresent = false ∧
      ∀ b : Bool, stepThread b (runSched [true, true, true, false, false, false]) =
        runSched [true, true, true, false, false, false])) :=
  ⟨by decide, pairing_negotiates_exactly_once _ (by decide)⟩

/-- C9: a Viewer handshake naming an existing stream with a client id
already present in that stream's viewer map silently replaces the old
viewer record — the new connections are assigned under the same key,
and no socket (in particular neither of the replaced record's
connections) is closed — and the server still replies `VIEWER_OK`. -/
theorem viewer_rejoin_replaces (client_id sid : String) (v a : SocketId)
    (reg : Registry) (st : Stream) (old : ViewerRec)
    (hst : dlookup sid reg = some st)
    (_hold : dlookup client_id st.viewers = some old) :
    (setup_viewer client_id (some sid) v a reg).sentVideo = [.viewerOk] ∧
    (setup_viewer client_id (some sid) v a reg).closed = [] ∧
    dlookup sid (setup_viewer client_id (some sid) v a reg).registry =
      some { st with viewers := dinsert client_id ⟨v, a⟩ st.viewers } ∧
    dlookup client_id (dinsert client_id (⟨v, a⟩ : ViewerRec) st.viewers) =
      some ⟨v, a⟩ := by
  have h1 : setup_viewer client_id (some sid) v a reg =
      { registry := dinsert sid { st with viewers := dinsert client_id ⟨v, a⟩ st.viewers } reg,
        sentVideo := [.viewerOk], closed := [] } := by
    simp [setup_viewer, hst]
  rw [h1]
  exact ⟨rfl, rfl, dlookup_dinsert _ _ _, dlookup_dinsert _ _ _⟩

/-- C9 witness: the viewer `"v"` joins a stream it is already attached
to, with fresh connections `⟨8⟩`, `⟨9⟩` replacing `⟨2⟩`, `⟨3⟩`. -/
theorem viewer_rejoin_replaces_witness :
    dlookup "v" [("v", (⟨⟨2⟩, ⟨3⟩⟩ : ViewerRec))] = some ⟨⟨2⟩, ⟨3⟩⟩ ∧
    ((setup_viewer "v" (some "s") ⟨8⟩ ⟨9⟩
        [("s", ⟨⟨"h", ⟨0⟩, ⟨1⟩⟩, [("v", ⟨⟨2⟩, ⟨3⟩⟩)]⟩)]).sentVideo = [.viewerOk] ∧
    (setup_viewer "v" (some "s") ⟨8⟩ ⟨9⟩
        [("s", ⟨⟨"h", ⟨0⟩, ⟨1⟩⟩, [("v", ⟨⟨2⟩, ⟨3⟩⟩)]⟩)]).closed = [] ∧
    dlookup "s" (setup_viewer "v" (some "s") ⟨8⟩ ⟨9⟩
        [("s", ⟨⟨"h", ⟨0⟩, ⟨1⟩⟩, [("v", ⟨⟨2⟩, ⟨3⟩⟩)]⟩)]).registry =
      some ⟨⟨"h", ⟨0⟩, ⟨1⟩⟩, [("v", ⟨⟨8⟩, ⟨9⟩⟩)]⟩ ∧
    dlookup "v" [("v", (⟨⟨8⟩, ⟨9⟩⟩ : ViewerRec))] = some ⟨⟨8⟩, ⟨9⟩⟩) :=
  ⟨rfl, viewer_rejoin_replaces "v" "s" ⟨8⟩ ⟨9⟩
    [("s", ⟨⟨"h", ⟨0⟩, ⟨1⟩⟩, [("v", ⟨⟨2⟩, ⟨3⟩⟩)]⟩)]
    ⟨⟨"h", ⟨0⟩, ⟨1⟩⟩, [("v", ⟨⟨2⟩, ⟨3⟩⟩)]⟩ ⟨⟨2⟩, ⟨3⟩⟩ rfl rfl⟩

/-- C10: a frame whose 4-byte header declares length 0 is a successful
read, not a disconnect — `receive_data` returns `(0, b"")`, distinct
from the `(0, None)` disconnect signal — and the broadcast loop
forwards it to every viewer as a zero-length frame (4-byte zero header,
empty payload) instead of breaking out and tearing the stream down. -/
theorem zero_length_frame_forwarded (rest : List (List Byte)) (sid : String)
    (kind : MediaKind) (reg : Registry) (st : Stream)
    (hst : dlookup sid reg = some st) :
    receive_data ([0, 0, 0, 0] :: rest) = .ok 0 [] ∧
    receive_data ([0, 0, 0, 0] :: rest) ≠ .disconnect ∧
    broadcast_iteration sid kind (.ok 0 []) (fun _ => false) reg =
      (reg, st.viewers.map (fun p => (p.1, [0, 0, 0, 0])), true) := by
  have hok : receive_data ([0, 0, 0, 0] :: rest) = .ok 0 [] := by
    cases rest <;> simp [receive_data, recvLoop, unpackI]
  refine ⟨hok, ?_, ?_⟩
  · rw [hok]; simp
  · simp [broadcast_iteration, hst, writePass_none_failing, packI]

/-- C10 witness: a registered stream with one viewer receiving the
zero-length frame. -/
theorem zero_length_frame_forwarded_witness :
    dlookup "s" ([("s", (⟨⟨"h", ⟨0⟩, ⟨1⟩⟩, [("v", ⟨⟨2⟩, ⟨3⟩⟩)]⟩ : Stream))] :
        Registry) = some ⟨⟨"h", ⟨0⟩, ⟨1⟩⟩, [("v", ⟨⟨2⟩, ⟨3⟩⟩)]⟩ ∧
    (receive_data [[0, 0, 0, 0]] = .ok 0 [] ∧
    receive_data [[0, 0, 0, 0]] ≠ .disconnect ∧
    broadcast_iteration "s" .video (.ok 0 []) (fun _ => false)
        [("s", ⟨⟨"h", ⟨0⟩, ⟨1⟩⟩, [("v", ⟨⟨2⟩, ⟨3⟩⟩)]⟩)] =
      ([("s", ⟨⟨"h", ⟨0⟩, ⟨1⟩⟩, [("v", ⟨⟨2⟩, ⟨3⟩⟩)]⟩)],
       [("v", [0, 0, 0, 0])], true)) :=
  ⟨rfl, zero_length_frame_forwarded [] "s" .video
    [("s", ⟨⟨"h", ⟨0⟩, ⟨1⟩⟩, [("v", ⟨⟨2⟩, ⟨3⟩⟩)]⟩)]
    ⟨⟨"h", ⟨0⟩, ⟨1⟩⟩, [("v", ⟨⟨2⟩, ⟨3⟩⟩)]⟩ rfl⟩

end Twitch
